import Mathlib

/-!
# Verification of the `listen` voice-dictation utility

A shallow embedding of the coordination core of the `listen` repository:
the `AudioRecorder` buffer/state machine (`src/listen_app/recorder.py`),
the terminal front end `ListenApp` (`src/listen_app/cli.py`) and the GUI
front end `ListenGUI` (`src/listen_app/gui.py`).

Bytes are modelled as `Nat` (each conceptually `< 256`), byte strings as
`List Nat`.  The external speech model (`Transcriber.transcribe`) is an
oracle parameter of type `Gateway`; a Python exception raised by the model
is an `Except.error` carrying the message.  Worker threads spawned with
`threading.Thread(...).start()` run their body to completion at the spawn
point, so each input event is processed atomically; concurrency claims are
settled over sequences of such atomic events.
-/

/-- Result of a transcription operation
(`TranscriptionResult` in `src/listen_app/transcriber.py`). -/
structure TranscriptionResult where
  text : String
  language : String
  language_probability : Rat
  duration : Rat
deriving DecidableEq

/-- The transcription gateway oracle: `Transcriber.transcribe` consumes WAV
bytes and either returns a result or raises (modelled as `Except.error`
carrying the exception message). -/
def Gateway : Type := List Nat → Except String TranscriptionResult

/-- State of one `AudioRecorder` (`src/listen_app/recorder.py`):
the accumulated PCM frames (`self._frames`), the recording flag
(`self._is_recording`) and whether an input stream is open
(`self._stream is not None`). -/
structure RecorderState where
  frames : List (List Nat)
  is_recording : Bool
  stream_open : Bool
deriving DecidableEq

namespace AudioRecorder

/-- `AudioRecorder.SAMPLE_RATE = 16000`. -/
def SAMPLE_RATE : Nat := 16000

/-- `AudioRecorder.CHANNELS = 1`. -/
def CHANNELS : Nat := 1

/-- Sample width in bytes: `pyaudio.get_sample_size(pyaudio.paInt16) = 2`. -/
def SAMPLE_WIDTH : Nat := 2

/-- `AudioRecorder.CHUNK_SIZE = 1024` (samples per device-delivered frame). -/
def CHUNK_SIZE : Nat := 1024

/-- Fresh recorder as built by `AudioRecorder.__init__`: empty frame list,
not recording, no stream. -/
def init : RecorderState := { frames := [], is_recording := false, stream_open := false }

end AudioRecorder

/-- A 16-bit unsigned integer serialized little-endian, as written by the
`wave` module into WAV header fields. -/
def u16le (n : Nat) : List Nat := [n % 256, n / 256 % 256]

/-- A 32-bit unsigned integer serialized little-endian, as written by the
`wave` module into WAV header fields. -/
def u32le (n : Nat) : List Nat :=
  [n % 256, n / 256 % 256, n / 65536 % 256, n / 16777216 % 256]

/-- The 44-byte canonical WAV header produced by Python's `wave` module for
a mono 16 kHz 16-bit PCM file whose data chunk holds `dataLen` bytes
(after `writeframes` has patched the length fields): `RIFF`, riff-chunk
size, `WAVE`, `fmt `, fmt-chunk size 16, PCM tag 1, channel count, sample
rate, byte rate, block align, bits per sample, `data`, data length. -/
def wav_header (dataLen : Nat) : List Nat :=
  [82, 73, 70, 70] ++ u32le (36 + dataLen) ++
  [87, 65, 86, 69] ++
  [102, 109, 116, 32] ++ u32le 16 ++ u16le 1 ++
  u16le AudioRecorder.CHANNELS ++ u32le AudioRecorder.SAMPLE_RATE ++
  u32le (AudioRecorder.SAMPLE_RATE * AudioRecorder.CHANNELS * AudioRecorder.SAMPLE_WIDTH) ++
  u16le (AudioRecorder.CHANNELS * AudioRecorder.SAMPLE_WIDTH) ++
  u16le (AudioRecorder.SAMPLE_WIDTH * 8) ++
  [100, 97, 116, 97] ++ u32le dataLen

namespace AudioRecorder

/-- `AudioRecorder._frames_to_wav`: encode the accumulated frames into an
in-memory WAV file via the `wave` module — the 44-byte header followed by
`b"".join(self._frames)`. -/
def frames_to_wav (frames : List (List Nat)) : List Nat :=
  wav_header (List.flatten frames).length ++ List.flatten frames

/-- `AudioRecorder.start`: early return if already recording; otherwise
reset the frame buffer to empty, set the recording flag and open the input
stream. -/
def start (s : RecorderState) : RecorderState :=
  if s.is_recording = true then s
  else { frames := [], is_recording := true, stream_open := true }

/-- `AudioRecorder._audio_callback`: when recording, append the delivered
chunk to the frame buffer; otherwise the chunk is dropped. -/
def audio_callback (s : RecorderState) (in_data : List Nat) : RecorderState :=
  if s.is_recording = true then { s with frames := s.frames ++ [in_data] }
  else s

/-- `AudioRecorder.stop`: if not recording, return `b""` and leave the
state untouched; otherwise clear the recording flag, close the stream and
return the WAV encoding of the accumulated frames.  The frame list itself
is not cleared. -/
def stop (s : RecorderState) : RecorderState × List Nat :=
  if s.is_recording = true then
    ({ frames := s.frames, is_recording := false, stream_open := false },
      frames_to_wav s.frames)
  else (s, [])

/-- `AudioRecorder.save_to_file`: the bytes written to disk — a fresh WAV
encoding of whatever is currently in `self._frames`. -/
def save_to_file (s : RecorderState) : List Nat :=
  frames_to_wav s.frames

end AudioRecorder

/-! ## Helper lemmas about the recorder -/

/-- The WAV header is always exactly 44 bytes. -/
theorem wav_header_length (dataLen : Nat) : (wav_header dataLen).length = 44 := rfl

/-- Folding the audio callback over chunks while recording appends them in
delivery order and keeps recording. -/
theorem foldl_audio_callback_recording (ds : List (List Nat)) :
    ∀ s : RecorderState, s.is_recording = true →
      ds.foldl AudioRecorder.audio_callback s =
        { s with frames := s.frames ++ ds } := by
  induction ds with
  | nil => intro s _; simp
  | cons d ds ih =>
      intro s h
      simp only [List.foldl_cons, AudioRecorder.audio_callback, h, if_pos]
      rw [ih _ (by simp [h])]
      simp

/-- Folding the audio callback over chunks while not recording drops them
all. -/
theorem foldl_audio_callback_idle (ds : List (List Nat)) :
    ∀ s : RecorderState, s.is_recording = false →
      ds.foldl AudioRecorder.audio_callback s = s := by
  induction ds with
  | nil => intro s _; simp
  | cons d ds ih =>
      intro s h
      simp only [List.foldl_cons, AudioRecorder.audio_callback, h]
      rw [if_neg (by simp [h])]
      exact ih s h

/-! ## Claims about the recorder -/

/-- **C5.** For a recording with `N` appended frames each of `F` bytes, the
WAV container returned by `stop()` has byte length exactly
`44 + N * F` (fixed 44-byte header plus the `N * F` payload bytes); and
stopping with zero appended frames returns the bare 44-byte header — a
minimal header-only WAV container — rather than raising. -/
theorem C5_wav_length (s : RecorderState) (N F : Nat)
    (h : s.is_recording = true) (hN : s.frames.length = N)
    (hF : ∀ f ∈ s.frames, f.length = F) :
    ((AudioRecorder.stop s).2).length = 44 + N * F ∧
    (s.frames = [] → (AudioRecorder.stop s).2 = wav_header 0) := by
  constructor
  · have hjoin : (List.flatten s.frames).length = N * F := by
      rw [List.length_flatten]
      have hmap : s.frames.map List.length = List.replicate N F := by
        apply List.eq_replicate_iff.2
        constructor
        · simp [hN]
        · intro b hb
          rcases List.mem_map.1 hb with ⟨f, hf, rfl⟩
          exact hF f hf
      rw [hmap, List.sum_replicate, smul_eq_mul]
    simp only [AudioRecorder.stop, h, if_pos, AudioRecorder.frames_to_wav]
    rw [List.length_append, wav_header_length, hjoin]
  · intro hnil
    simp [AudioRecorder.stop, h, AudioRecorder.frames_to_wav, hnil]

/-- Witness for C5 at the zero-frame recording state. -/
theorem C5_wav_length_witness :
    ((AudioRecorder.stop { frames := [], is_recording := true, stream_open := true }).2).length
      = 44 + 0 * 0 ∧
    (([] : List (List Nat)) = [] →
      (AudioRecorder.stop { frames := [], is_recording := true, stream_open := true }).2
        = wav_header 0) :=
  C5_wav_length { frames := [], is_recording := true, stream_open := true } 0 0
    rfl rfl (by intro f hf; simp at hf)

/-- **C6.** Starting from any non-recording state, the payload of the WAV
container returned by `stop()` is exactly the concatenation, in
device-delivery order, of the chunks appended by the audio callback
between that `start()` and that `stop()` — no reordering, nothing from
before `start()` (the buffer is reset there), and chunks delivered after
`stop()` are not appended. -/
theorem C6_exact_frames (s : RecorderState) (ds post : List (List Nat))
    (h : s.is_recording = false) :
    (AudioRecorder.stop (ds.foldl AudioRecorder.audio_callback (AudioRecorder.start s))).2
      = wav_header (List.flatten ds).length ++ List.flatten ds ∧
    (post.foldl AudioRecorder.audio_callback
        (AudioRecorder.stop (ds.foldl AudioRecorder.audio_callback (AudioRecorder.start s))).1).frames
      = (AudioRecorder.stop (ds.foldl AudioRecorder.audio_callback (AudioRecorder.start s))).1.frames := by
  have hstart : AudioRecorder.start s =
      { frames := [], is_recording := true, stream_open := true } := by
    simp [AudioRecorder.start, h]
  have hfold : ds.foldl AudioRecorder.audio_callback (AudioRecorder.start s) =
      { frames := ds, is_recording := true, stream_open := true } := by
    rw [hstart, foldl_audio_callback_recording ds _ rfl]
    simp
  constructor
  · rw [hfold]
    simp [AudioRecorder.stop, AudioRecorder.frames_to_wav]
  · rw [hfold]
    simp only [AudioRecorder.stop, if_pos]
    rw [foldl_audio_callback_idle post _ rfl]

/-- Witness for C6: one recording of two chunks, with a pre-existing stale
frame and a post-stop chunk, both excluded from the payload. -/
theorem C6_exact_frames_witness :
    (AudioRecorder.stop
        ([[1, 2], [3]].foldl AudioRecorder.audio_callback
          (AudioRecorder.start
            { frames := [[9, 9]], is_recording := false, stream_open := false }))).2
      = wav_header (List.flatten [[1, 2], [3]]).length ++ List.flatten [[1, 2], [3]] ∧
    ([[5]].foldl AudioRecorder.audio_callback
        (AudioRecorder.stop
          ([[1, 2], [3]].foldl AudioRecorder.audio_callback
            (AudioRecorder.start
              { frames := [[9, 9]], is_recording := false, stream_open := false }))).1).frames
      = (AudioRecorder.stop
          ([[1, 2], [3]].foldl AudioRecorder.audio_callback
            (AudioRecorder.start
              { frames := [[9, 9]], is_recording := false, stream_open := false }))).1.frames :=
  C6_exact_frames { frames := [[9, 9]], is_recording := false, stream_open := false }
    [[1, 2], [3]] [[5]] rfl

/-- **C7 counterexample.**  The claim says that after a successful `stop()`
no subsequent operation of the recorder can observe or re-encode the
frames of the finished recording.  In the code, `stop()` does not clear
`self._frames`, and `save_to_file` re-encodes exactly those frames: after
recording the single chunk `[7, 7]` and stopping, the state still holds
`[[7, 7]]` and `save_to_file` reproduces the very WAV bytes `stop()`
returned. -/
theorem C7_counterexample :
    (AudioRecorder.stop
        (AudioRecorder.audio_callback (AudioRecorder.start AudioRecorder.init) [7, 7])).1.frames
      = [[7, 7]] ∧
    AudioRecorder.save_to_file
        (AudioRecorder.stop
          (AudioRecorder.audio_callback (AudioRecorder.start AudioRecorder.init) [7, 7])).1
      = (AudioRecorder.stop
          (AudioRecorder.audio_callback (AudioRecorder.start AudioRecorder.init) [7, 7])).2 := by
  decide

/-- **C7 amended.**  After a successful `stop()` the frame buffer is
retained, not discarded: the stopped state still holds the finished
recording's frames and `save_to_file` re-encodes them into the same WAV
bytes `stop()` returned.  The buffer is discarded only at the next
`start()`, which begins from a fresh empty buffer. -/
theorem C7_buffer_retained (s : RecorderState) (h : s.is_recording = true) :
    (AudioRecorder.stop s).1.frames = s.frames ∧
    AudioRecorder.save_to_file (AudioRecorder.stop s).1 = (AudioRecorder.stop s).2 ∧
    (AudioRecorder.start (AudioRecorder.stop s).1).frames = [] := by
  refine ⟨?_, ?_, ?_⟩ <;>
    simp [AudioRecorder.stop, AudioRecorder.start, AudioRecorder.save_to_file, h]

/-- Witness for the amended C7. -/
theorem C7_buffer_retained_witness :
    (AudioRecorder.stop { frames := [[1]], is_recording := true, stream_open := true }).1.frames
      = [[1]] ∧
    AudioRecorder.save_to_file
        (AudioRecorder.stop { frames := [[1]], is_recording := true, stream_open := true }).1
      = (AudioRecorder.stop { frames := [[1]], is_recording := true, stream_open := true }).2 ∧
    (AudioRecorder.start
        (AudioRecorder.stop { frames := [[1]], is_recording := true, stream_open := true }).1).frames
      = [] :=
  C7_buffer_retained { frames := [[1]], is_recording := true, stream_open := true } rfl

/-- **C8.** Calling `stop()` on a recorder that is not capturing never
raises: it returns the empty payload `b""` and leaves the whole recorder
state (frames, stream, recording flag) unchanged. -/
theorem C8_stop_idle (s : RecorderState) (h : s.is_recording = false) :
    AudioRecorder.stop s = (s, []) := by
  simp [AudioRecorder.stop, h]

/-- Witness for C8. -/
theorem C8_stop_idle_witness :
    AudioRecorder.stop { frames := [[4]], is_recording := false, stream_open := false }
      = ({ frames := [[4]], is_recording := false, stream_open := false }, []) :=
  C8_stop_idle { frames := [[4]], is_recording := false, stream_open := false } rfl

/-- **C9.** Calling `start()` while the recorder is already capturing is a
deterministic idempotent no-op: the capture is not restarted and the frame
buffer, open stream and recording flag are all unchanged. -/
theorem C9_start_noop (s : RecorderState) (h : s.is_recording = true) :
    AudioRecorder.start s = s := by
  simp [AudioRecorder.start, h]

/-- Witness for C9. -/
theorem C9_start_noop_witness :
    AudioRecorder.start { frames := [[2]], is_recording := true, stream_open := true }
      = { frames := [[2]], is_recording := true, stream_open := true } :=
  C9_start_noop { frames := [[2]], is_recording := true, stream_open := true } rfl

/-! ## The terminal front end (`ListenApp`, `src/listen_app/cli.py`)

The recorder is constructed with
`on_status_change = self._on_recording_status`, which sets
`self._recording = (status == "recording")`; the notify calls inside
`AudioRecorder.start`/`stop` are therefore inlined where the Python
callback fires. -/

/-- Mutable state of one `ListenApp` instance (`ListenApp.__init__`),
together with two audit fields recording the externally observable
interactions: `gatewayCalls` lists every payload handed to
`Transcriber.transcribe`, and `clipboard` holds the last
`pyperclip.copy` argument. -/
structure AppState where
  toggle_mode : Bool
  auto_copy : Bool
  recording : Bool
  processing : Bool
  last_transcription : String
  ctrl_pressed : Bool
  space_pressed : Bool
  recorder : RecorderState
  gatewayCalls : List (List Nat)
  clipboard : Option String
deriving DecidableEq

/-- The keys `ListenApp` distinguishes; every other delivered key object
(including malformed ones caught by the `AttributeError` handler) is
`other`. -/
inductive Key where
  | ctrl_l | ctrl_r | space | other
deriving DecidableEq

/-- A keyboard event as delivered by the `pynput` listener. -/
inductive KeyEvent where
  | press (k : Key)
  | release (k : Key)
deriving DecidableEq

namespace ListenApp

/-- `ListenApp.__init__(model_size, toggle_mode, auto_copy)`: idle state,
empty last transcription, both key flags down, fresh recorder. -/
def init (toggle_mode auto_copy : Bool) : AppState :=
  { toggle_mode := toggle_mode, auto_copy := auto_copy,
    recording := false, processing := false, last_transcription := "",
    ctrl_pressed := false, space_pressed := false,
    recorder := AudioRecorder.init, gatewayCalls := [], clipboard := none }

/-- `ListenApp._start_recording` (cli.py lines 116-119): only when neither
recording nor processing, call `self._recorder.start()`; when the recorder
actually starts it fires `_notify_status("recording")`, which sets
`self._recording` true via `_on_recording_status`. -/
def start_recording (s : AppState) : AppState :=
  if s.recording = false ∧ s.processing = false then
    if s.recorder.is_recording = true then
      { s with recorder := AudioRecorder.start s.recorder }
    else
      { s with recorder := AudioRecorder.start s.recorder, recording := true }
  else s

/-- The tail of `ListenApp._stop_recording_and_transcribe` (cli.py lines
130-146), after `audio_data = self._recorder.stop()` has produced the
payload: invoke the transcriber only when `len(audio_data) > 1000`,
storing the result text and copying it to the clipboard when non-empty
(a raised exception is printed and otherwise ignored); otherwise store the
sentinel.  Either way the processing flag is cleared at the end. -/
def process_audio (gw : Gateway) (audio : List Nat) (s : AppState) : AppState :=
  if audio.length > 1000 then
    let s1 := { s with gatewayCalls := s.gatewayCalls ++ [audio] }
    match gw audio with
    | Except.ok r =>
        let s2 := { s1 with last_transcription := r.text }
        let s3 := if s2.auto_copy = true ∧ r.text ≠ "" then
            { s2 with clipboard := some r.text }
          else s2
        { s3 with processing := false }
    | Except.error _ => { s1 with processing := false }
  else
    { s with last_transcription := "(no audio captured)", processing := false }

/-- `ListenApp._stop_recording_and_transcribe` (cli.py lines 121-146):
when recording, set the processing flag, stop the recorder (whose
`_notify_status("stopped")` clears `self._recording` when it was actually
capturing), then handle the payload via `process_audio`. -/
def stop_recording_and_transcribe (gw : Gateway) (s : AppState) : AppState :=
  if s.recording = true then
    let s1 := { s with processing := true }
    let p := AudioRecorder.stop s1.recorder
    let s2 := if s1.recorder.is_recording = true then
        { s1 with recorder := p.1, recording := false }
      else { s1 with recorder := p.1 }
    process_audio gw p.2 s2
  else s

/-- `ListenApp._on_key_press` (cli.py lines 148-170): raise the matching
key flag, then if Ctrl and Space are both down, either toggle
(stop-and-transcribe when recording, start otherwise) or, in hold mode,
start recording. -/
def on_key_press (gw : Gateway) (k : Key) (s : AppState) : AppState :=
  let s1 := match k with
    | Key.ctrl_l => { s with ctrl_pressed := true }
    | Key.ctrl_r => { s with ctrl_pressed := true }
    | Key.space => { s with space_pressed := true }
    | Key.other => s
  if s1.ctrl_pressed = true ∧ s1.space_pressed = true then
    if s1.toggle_mode = true then
      if s1.recording = true then stop_recording_and_transcribe gw s1
      else start_recording s1
    else start_recording s1
  else s1

/-- `ListenApp._on_key_release` (cli.py lines 172-190): lower the matching
key flag; in push-to-talk mode, releasing either Ctrl or Space while
recording stops and transcribes. -/
def on_key_release (gw : Gateway) (k : Key) (s : AppState) : AppState :=
  match k with
  | Key.ctrl_l =>
      let s1 := { s with ctrl_pressed := false }
      if s1.toggle_mode = false ∧ s1.recording = true then
        stop_recording_and_transcribe gw s1
      else s1
  | Key.ctrl_r =>
      let s1 := { s with ctrl_pressed := false }
      if s1.toggle_mode = false ∧ s1.recording = true then
        stop_recording_and_transcribe gw s1
      else s1
  | Key.space =>
      let s1 := { s with space_pressed := false }
      if s1.toggle_mode = false ∧ s1.recording = true then
        stop_recording_and_transcribe gw s1
      else s1
  | Key.other => s

/-- One keyboard event dispatched by the `pynput` listener. -/
def step (gw : Gateway) (e : KeyEvent) (s : AppState) : AppState :=
  match e with
  | KeyEvent.press k => on_key_press gw k s
  | KeyEvent.release k => on_key_release gw k s

end ListenApp

/-! ## The GUI front end (`ListenGUI`, `src/listen_app/gui.py`)

The GUI recorder's `on_status_change` callback is a `pass`, so recorder
notifications do not touch GUI state; the GUI flips its own flags in the
button handlers.  Waveform drawing and button styling are pure rendering
and are not modelled; the status and result labels are. -/

/-- Mutable state of one `ListenGUI` instance after activation, with the
same two audit fields as `AppState` plus `completedText`, the argument the
background thread hands to `_on_transcription_complete` via
`GLib.idle_add`. -/
structure GuiState where
  auto_copy : Bool
  recording : Bool
  processing : Bool
  status_label : String
  result_label : String
  completedText : String
  recorder : RecorderState
  gatewayCalls : List (List Nat)
  clipboard : Option String
deriving DecidableEq

namespace ListenGUI

/-- `ListenGUI.__init__` plus `_on_activate`: idle state with a fresh
recorder and empty labels. -/
def init (auto_copy : Bool) : GuiState :=
  { auto_copy := auto_copy, recording := false, processing := false,
    status_label := "Loading model...", result_label := "",
    completedText := "", recorder := AudioRecorder.init,
    gatewayCalls := [], clipboard := none }

/-- `ListenGUI._on_transcription_complete` (gui.py lines 271-286): clear
the processing flag and render the completion text — quoted in the result
label when it is non-empty and not an error marker. -/
def on_transcription_complete (text : String) (g : GuiState) : GuiState :=
  let g1 := { g with processing := false, completedText := text }
  if text ≠ "" ∧ (text.startsWith "Error:") = false then
    { g1 with
      status_label := if g1.auto_copy = true then "✓ Copied to clipboard" else "Ready",
      result_label := "\"" ++ text ++ "\"" }
  else
    { g1 with status_label := "Ready", result_label := text }

/-- The tail of `ListenGUI._transcribe_audio` (gui.py lines 256-269) after
`audio_data = self._recorder.stop()`: short-circuit to the
"(no audio captured)" sentinel when the payload is under 1000 bytes,
otherwise invoke the transcriber, strip the text, copy it to the clipboard
when non-empty, and complete (an exception completes with an error
marker). -/
def transcribe_payload (gw : Gateway) (audio : List Nat) (g : GuiState) : GuiState :=
  if audio.length < 1000 then
    on_transcription_complete "(no audio captured)" g
  else
    let g1 := { g with gatewayCalls := g.gatewayCalls ++ [audio] }
    match gw audio with
    | Except.ok r =>
        let text := r.text.trim
        let g2 := if g1.auto_copy = true ∧ text ≠ "" then
            { g1 with clipboard := some text }
          else g1
        on_transcription_complete text g2
    | Except.error e => on_transcription_complete ("Error: " ++ e) g1

/-- `ListenGUI._transcribe_audio` (gui.py lines 252-269): stop the
recorder and handle the captured payload. -/
def transcribe_audio (gw : Gateway) (g : GuiState) : GuiState :=
  let p := AudioRecorder.stop g.recorder
  transcribe_payload gw p.2 { g with recorder := p.1 }

/-- `ListenGUI._start_recording` (gui.py lines 221-233): set the recording
flag, update labels, and start the recorder. -/
def start_recording (g : GuiState) : GuiState :=
  let g1 := { g with recording := true, status_label := "Recording...",
                     result_label := "" }
  { g1 with recorder := AudioRecorder.start g1.recorder }

/-- `ListenGUI._stop_recording` (gui.py lines 239-250): clear the
recording flag, set the processing flag, update the label, and run the
background transcription. -/
def stop_recording (gw : Gateway) (g : GuiState) : GuiState :=
  let g1 := { g with recording := false, processing := true,
                     status_label := "Processing audio..." }
  transcribe_audio gw g1

/-- `ListenGUI._on_record_clicked` (gui.py lines 211-219): ignore the
click while processing; otherwise start when idle, stop when recording. -/
def on_record_clicked (gw : Gateway) (g : GuiState) : GuiState :=
  if g.processing = true then g
  else if g.recording = false then start_recording g
  else stop_recording gw g

end ListenGUI

/-! ## Helper lemmas about the front-end controllers -/

/-- `process_audio` always ends with the processing flag cleared. -/
@[simp] theorem ListenApp.process_audio_processing (gw : Gateway) (a : List Nat) (s : AppState) :
    (ListenApp.process_audio gw a s).processing = false := by
  simp only [ListenApp.process_audio]
  split
  · cases gw a <;> simp
  · rfl

/-- `process_audio` never touches the recording flag. -/
@[simp] theorem ListenApp.process_audio_recording (gw : Gateway) (a : List Nat) (s : AppState) :
    (ListenApp.process_audio gw a s).recording = s.recording := by
  simp only [ListenApp.process_audio]
  split
  · cases gw a with
    | ok r => simp only []; split <;> rfl
    | error e => rfl
  · rfl

/-- `process_audio` never touches the Ctrl flag. -/
@[simp] theorem ListenApp.process_audio_ctrl (gw : Gateway) (a : List Nat) (s : AppState) :
    (ListenApp.process_audio gw a s).ctrl_pressed = s.ctrl_pressed := by
  simp only [ListenApp.process_audio]
  split
  · cases gw a with
    | ok r => simp only []; split <;> rfl
    | error e => rfl
  · rfl

/-- `process_audio` never touches the Space flag. -/
@[simp] theorem ListenApp.process_audio_space (gw : Gateway) (a : List Nat) (s : AppState) :
    (ListenApp.process_audio gw a s).space_pressed = s.space_pressed := by
  simp only [ListenApp.process_audio]
  split
  · cases gw a with
    | ok r => simp only []; split <;> rfl
    | error e => rfl
  · rfl

/-- `process_audio` never touches the mode flag. -/
@[simp] theorem ListenApp.process_audio_toggle (gw : Gateway) (a : List Nat) (s : AppState) :
    (ListenApp.process_audio gw a s).toggle_mode = s.toggle_mode := by
  simp only [ListenApp.process_audio]
  split
  · cases gw a with
    | ok r => simp only []; split <;> rfl
    | error e => rfl
  · rfl

/-- `process_audio` never touches the recorder. -/
@[simp] theorem ListenApp.process_audio_recorder (gw : Gateway) (a : List Nat) (s : AppState) :
    (ListenApp.process_audio gw a s).recorder = s.recorder := by
  simp only [ListenApp.process_audio]
  split
  · cases gw a with
    | ok r => simp only []; split <;> rfl
    | error e => rfl
  · rfl

/-- `process_audio` invokes the gateway exactly when the payload exceeds
1000 bytes. -/
theorem ListenApp.process_audio_gatewayCalls (gw : Gateway) (a : List Nat) (s : AppState) :
    (ListenApp.process_audio gw a s).gatewayCalls =
      if a.length > 1000 then s.gatewayCalls ++ [a] else s.gatewayCalls := by
  simp only [ListenApp.process_audio]
  split
  · cases gw a with
    | ok r =>
        simp only []
        split <;> simp_all
    | error e => simp_all
  · simp_all

/-- `on_transcription_complete` never touches the gateway-call audit. -/
@[simp] theorem ListenGUI.on_transcription_complete_gatewayCalls (t : String) (g : GuiState) :
    (ListenGUI.on_transcription_complete t g).gatewayCalls = g.gatewayCalls := by
  simp only [ListenGUI.on_transcription_complete]
  split <;> rfl

/-- `on_transcription_complete` records its text argument. -/
@[simp] theorem ListenGUI.on_transcription_complete_completedText (t : String) (g : GuiState) :
    (ListenGUI.on_transcription_complete t g).completedText = t := by
  simp only [ListenGUI.on_transcription_complete]
  split <;> rfl

/-- `on_transcription_complete` clears the processing flag. -/
@[simp] theorem ListenGUI.on_transcription_complete_processing (t : String) (g : GuiState) :
    (ListenGUI.on_transcription_complete t g).processing = false := by
  simp only [ListenGUI.on_transcription_complete]
  split <;> rfl

/-- The GUI invokes the gateway exactly when the payload is not under
1000 bytes. -/
theorem ListenGUI.transcribe_payload_gatewayCalls (gw : Gateway) (a : List Nat) (g : GuiState) :
    (ListenGUI.transcribe_payload gw a g).gatewayCalls =
      if a.length < 1000 then g.gatewayCalls else g.gatewayCalls ++ [a] := by
  simp only [ListenGUI.transcribe_payload]
  split
  · simp_all
  · cases gw a with
    | ok r =>
        simp only []
        split <;> simp_all
    | error e => simp_all

/-- The encoded container is always the 44-byte header plus the payload. -/
theorem frames_to_wav_length (frames : List (List Nat)) :
    (AudioRecorder.frames_to_wav frames).length = 44 + (List.flatten frames).length := by
  rw [AudioRecorder.frames_to_wav, List.length_append, wav_header_length]

/-- A list strictly grows when an element is appended. -/
theorem append_singleton_ne {α : Type} (l : List α) (a : α) : l ++ [a] ≠ l := by
  intro h
  have := congrArg List.length h
  simp at this

/-- A gateway that always raises, for concrete instantiations. -/
def failingGateway : Gateway := fun _ => Except.error "CUDA out of memory"

/-- A gateway that always succeeds, for concrete instantiations. -/
def okGateway : Gateway :=
  fun _ => Except.ok
    { text := "hello world", language := "en", language_probability := 1, duration := 1 }

/-- A recorder mid-capture holding one 1000-byte frame. -/
def loadedRecorder : RecorderState :=
  { frames := [List.replicate 1000 0], is_recording := true, stream_open := true }

/-- A terminal app mid-recording over `loadedRecorder`. -/
def loadedApp : AppState :=
  { ListenApp.init false true with recording := true, recorder := loadedRecorder }

/-! ## Claims about the front-end controllers -/

/-- **C1.** In any controller state whose phase is Processing, a
BeginSignal is ignored: the terminal front end's `_start_recording` leaves
the state (recorder included) untouched, and a GUI record-button click
returns immediately — so no second gateway invocation can be issued and
the phase remains Processing. -/
theorem C1_processing_guard (gw : Gateway) (s : AppState) (g : GuiState)
    (hs : s.processing = true) (hg : g.processing = true) :
    ListenApp.start_recording s = s ∧ ListenGUI.on_record_clicked gw g = g := by
  constructor
  · simp [ListenApp.start_recording, hs]
  · simp [ListenGUI.on_record_clicked, hg]

/-- Witness for C1 at concrete Processing-phase states. -/
theorem C1_processing_guard_witness :
    ListenApp.start_recording { ListenApp.init false true with processing := true }
      = { ListenApp.init false true with processing := true } ∧
    ListenGUI.on_record_clicked failingGateway
        { ListenGUI.init true with processing := true }
      = { ListenGUI.init true with processing := true } :=
  C1_processing_guard failingGateway
    { ListenApp.init false true with processing := true }
    { ListenGUI.init true with processing := true } rfl rfl

/-- **C3.** For every captured payload under 1000 bytes, neither front end
invokes the transcription gateway, and both produce the
"(no audio captured)" sentinel: the terminal stores it in
`_last_transcription`, the GUI hands it to `_on_transcription_complete`. -/
theorem C3_short_audio (gw : Gateway) (audio : List Nat) (s : AppState) (g : GuiState)
    (h : audio.length < 1000) :
    (ListenApp.process_audio gw audio s).gatewayCalls = s.gatewayCalls ∧
    (ListenApp.process_audio gw audio s).last_transcription = "(no audio captured)" ∧
    (ListenGUI.transcribe_payload gw audio g).gatewayCalls = g.gatewayCalls ∧
    (ListenGUI.transcribe_payload gw audio g).completedText = "(no audio captured)" := by
  have h1 : ¬ audio.length > 1000 := by omega
  refine ⟨?_, ?_, ?_, ?_⟩
  · rw [ListenApp.process_audio_gatewayCalls]
    simp [h1]
  · simp [ListenApp.process_audio, h1]
  · rw [ListenGUI.transcribe_payload_gatewayCalls]
    simp [h]
  · simp [ListenGUI.transcribe_payload, h]

/-- Witness for C3 with an empty payload. -/
theorem C3_short_audio_witness :
    (ListenApp.process_audio okGateway [] (ListenApp.init false true)).gatewayCalls
      = (ListenApp.init false true).gatewayCalls ∧
    (ListenApp.process_audio okGateway [] (ListenApp.init false true)).last_transcription
      = "(no audio captured)" ∧
    (ListenGUI.transcribe_payload okGateway [] (ListenGUI.init true)).gatewayCalls
      = (ListenGUI.init true).gatewayCalls ∧
    (ListenGUI.transcribe_payload okGateway [] (ListenGUI.init true)).completedText
      = "(no audio captured)" :=
  C3_short_audio okGateway [] (ListenApp.init false true) (ListenGUI.init true) (by decide)

/-- **C4.** When the gateway raises during Processing, the terminal
controller catches it at the task boundary: the processing flag is
cleared, the phase is back to Idle (not recording), `_last_transcription`
and the clipboard are unchanged, and a subsequent BeginSignal successfully
starts a fresh recording. -/
theorem C4_failure_recovery (gw : Gateway) (s : AppState) (msg : String)
    (hrec : s.recording = true) (hrr : s.recorder.is_recording = true)
    (hlen : (AudioRecorder.frames_to_wav s.recorder.frames).length > 1000)
    (hgw : gw (AudioRecorder.frames_to_wav s.recorder.frames) = Except.error msg) :
    (ListenApp.stop_recording_and_transcribe gw s).processing = false ∧
    (ListenApp.stop_recording_and_transcribe gw s).recording = false ∧
    (ListenApp.stop_recording_and_transcribe gw s).last_transcription = s.last_transcription ∧
    (ListenApp.stop_recording_and_transcribe gw s).clipboard = s.clipboard ∧
    ListenApp.start_recording (ListenApp.stop_recording_and_transcribe gw s)
      = { ListenApp.stop_recording_and_transcribe gw s with
            recorder := { frames := [], is_recording := true, stream_open := true },
            recording := true } := by
  have key : ListenApp.stop_recording_and_transcribe gw s =
      { s with processing := false, recording := false,
               recorder := { frames := s.recorder.frames, is_recording := false,
                             stream_open := false },
               gatewayCalls :=
                 s.gatewayCalls ++ [AudioRecorder.frames_to_wav s.recorder.frames] } := by
    simp [ListenApp.stop_recording_and_transcribe, hrec, AudioRecorder.stop, hrr,
          ListenApp.process_audio, hlen, hgw]
  rw [key]
  refine ⟨rfl, rfl, rfl, rfl, ?_⟩
  simp [ListenApp.start_recording, AudioRecorder.start]

/-- Witness for C4: a recording app holding a 1000-byte frame whose
gateway raises. -/
theorem C4_failure_recovery_witness :
    (ListenApp.stop_recording_and_transcribe failingGateway loadedApp).processing = false ∧
    (ListenApp.stop_recording_and_transcribe failingGateway loadedApp).recording = false ∧
    (ListenApp.stop_recording_and_transcribe failingGateway loadedApp).last_transcription
      = loadedApp.last_transcription ∧
    (ListenApp.stop_recording_and_transcribe failingGateway loadedApp).clipboard
      = loadedApp.clipboard ∧
    ListenApp.start_recording (ListenApp.stop_recording_and_transcribe failingGateway loadedApp)
      = { ListenApp.stop_recording_and_transcribe failingGateway loadedApp with
            recorder := { frames := [], is_recording := true, stream_open := true },
            recording := true } :=
  C4_failure_recovery failingGateway loadedApp "CUDA out of memory" rfl rfl
    (by
      show (AudioRecorder.frames_to_wav [List.replicate 1000 0]).length > 1000
      rw [frames_to_wav_length, List.flatten_cons, List.flatten_nil, List.append_nil,
          List.length_replicate]
      omega) rfl

/-- **C10 counterexample.**  The claim says the terminal and GUI front
ends make the same invoke-or-skip decision for every payload length, in
particular at exactly 1000 bytes.  On a 1000-byte payload the terminal's
`len(audio_data) > 1000` check fails (no gateway call) while the GUI's
`len(audio_data) < 1000` check also fails, so the GUI does call the
gateway: the two disagree at the boundary. -/
theorem C10_counterexample :
    (ListenApp.process_audio okGateway (List.replicate 1000 0)
        (ListenApp.init false true)).gatewayCalls = [] ∧
    (ListenGUI.transcribe_payload okGateway (List.replicate 1000 0)
        (ListenGUI.init true)).gatewayCalls = [List.replicate 1000 0] := by
  have hlen : (List.replicate 1000 (0 : Nat)).length = 1000 := List.length_replicate 1000 0
  constructor
  · rw [ListenApp.process_audio_gatewayCalls, if_neg (by rw [hlen]; omega)]
    rfl
  · rw [ListenGUI.transcribe_payload_gatewayCalls, if_neg (by rw [hlen]; omega)]
    rfl

/-- **C10 amended.**  For every payload byte length other than exactly
1000, the terminal front end invokes the transcription gateway if and only
if the GUI front end does; at exactly 1000 bytes they disagree (terminal
short-circuits, GUI invokes). -/
theorem C10_threshold_agreement (gw : Gateway) (audio : List Nat)
    (s : AppState) (g : GuiState) (h : audio.length ≠ 1000) :
    ((ListenApp.process_audio gw audio s).gatewayCalls ≠ s.gatewayCalls ↔
      (ListenGUI.transcribe_payload gw audio g).gatewayCalls ≠ g.gatewayCalls) := by
  rw [ListenApp.process_audio_gatewayCalls, ListenGUI.transcribe_payload_gatewayCalls]
  rcases lt_trichotomy audio.length 1000 with hlt | heq | hgt
  · have h1 : ¬ audio.length > 1000 := by omega
    simp [h1, hlt]
  · exact absurd heq h
  · have h1 : ¬ audio.length < 1000 := by omega
    simp [hgt, h1, append_singleton_ne]

/-- Witness for the amended C10 with an empty payload. -/
theorem C10_threshold_agreement_witness :
    ((ListenApp.process_audio okGateway [] (ListenApp.init false true)).gatewayCalls
        ≠ (ListenApp.init false true).gatewayCalls ↔
      (ListenGUI.transcribe_payload okGateway [] (ListenGUI.init true)).gatewayCalls
        ≠ (ListenGUI.init true).gatewayCalls) :=
  C10_threshold_agreement okGateway [] (ListenApp.init false true) (ListenGUI.init true)
    (by decide)

/-! ## Hold-mode edge detection (C2)

BeginSignal is the observable start of capture (the recording flag rising
during one dispatched key event) and EndSignal the observable stop (the
flag falling).  The property side is the pure two-boolean input gate of
the claim: the edge-detected AND of the modifier and trigger key states. -/

/-- The two edge-triggered signals of the input gate. -/
inductive Signal where
  | beginSig
  | endSig
deriving DecidableEq

/-- Signals observed while dispatching one key event: capture starting
(the recording flag rises) emits `BeginSignal`; capture stopping (the flag
falls) emits `EndSignal`. -/
def ListenApp.signal_of (gw : Gateway) (e : KeyEvent) (s : AppState) : List Signal :=
  if s.recording = false ∧ (ListenApp.step gw e s).recording = true then [Signal.beginSig]
  else if s.recording = true ∧ (ListenApp.step gw e s).recording = false then [Signal.endSig]
  else []

/-- Signals observed along a finite event sequence fed to the handlers. -/
def ListenApp.signals (gw : Gateway) : AppState → List KeyEvent → List Signal
  | _, [] => []
  | s, e :: es =>
      ListenApp.signal_of gw e s ++ ListenApp.signals gw (ListenApp.step gw e s) es

/-- The pure key-state update of one event on the (modifier, trigger)
boolean pair. -/
def gate_update (e : KeyEvent) (p : Bool × Bool) : Bool × Bool :=
  match e with
  | KeyEvent.press Key.ctrl_l => (true, p.2)
  | KeyEvent.press Key.ctrl_r => (true, p.2)
  | KeyEvent.press Key.space => (p.1, true)
  | KeyEvent.press Key.other => p
  | KeyEvent.release Key.ctrl_l => (false, p.2)
  | KeyEvent.release Key.ctrl_r => (false, p.2)
  | KeyEvent.release Key.space => (p.1, false)
  | KeyEvent.release Key.other => p

/-- The edge-detected signal stream of the pure gate: a rising edge of the
AND of the two key states emits `BeginSignal` (so exactly one per maximal
both-held interval, and a repeated press while both are held emits
nothing); a falling edge — either key released while both were held —
emits `EndSignal`. -/
def gate_edges : Bool × Bool → List KeyEvent → List Signal
  | _, [] => []
  | p, e :: es =>
      (if (p.1 && p.2) = false ∧ ((gate_update e p).1 && (gate_update e p).2) = true then
        [Signal.beginSig]
      else if (p.1 && p.2) = true ∧ ((gate_update e p).1 && (gate_update e p).2) = false then
        [Signal.endSig]
      else []) ++ gate_edges (gate_update e p) es

/-- One hold-mode key event preserves the controller invariant (never
processing between events, recording iff both keys held, recorder flag in
sync) and updates the key booleans exactly as the pure gate does. -/
theorem ListenApp.hold_step_spec (gw : Gateway) (e : KeyEvent) (s : AppState)
    (h1 : s.toggle_mode = false) (h2 : s.processing = false)
    (h3 : s.recording = (s.ctrl_pressed && s.space_pressed))
    (h4 : s.recorder.is_recording = s.recording) :
    (ListenApp.step gw e s).toggle_mode = false ∧
    (ListenApp.step gw e s).processing = false ∧
    (ListenApp.step gw e s).ctrl_pressed
      = (gate_update e (s.ctrl_pressed, s.space_pressed)).1 ∧
    (ListenApp.step gw e s).space_pressed
      = (gate_update e (s.ctrl_pressed, s.space_pressed)).2 ∧
    (ListenApp.step gw e s).recording
      = ((ListenApp.step gw e s).ctrl_pressed && (ListenApp.step gw e s).space_pressed) ∧
    (ListenApp.step gw e s).recorder.is_recording = (ListenApp.step gw e s).recording := by
  cases e with
  | press k =>
      cases k <;> cases hc : s.ctrl_pressed <;> cases hsp : s.space_pressed <;>
        simp_all [ListenApp.step, ListenApp.on_key_press, ListenApp.start_recording,
          ListenApp.stop_recording_and_transcribe, gate_update, AudioRecorder.start,
          AudioRecorder.stop]
  | release k =>
      cases k <;> cases hc : s.ctrl_pressed <;> cases hsp : s.space_pressed <;>
        simp_all [ListenApp.step, ListenApp.on_key_release, ListenApp.start_recording,
          ListenApp.stop_recording_and_transcribe, gate_update, AudioRecorder.start,
          AudioRecorder.stop]

/-- Along any hold-mode run from an invariant state, the observed capture
signals are exactly the pure gate's edge signals. -/
theorem ListenApp.hold_signals (gw : Gateway) : ∀ (es : List KeyEvent) (s : AppState),
    s.toggle_mode = false → s.processing = false →
    s.recording = (s.ctrl_pressed && s.space_pressed) →
    s.recorder.is_recording = s.recording →
    ListenApp.signals gw s es = gate_edges (s.ctrl_pressed, s.space_pressed) es := by
  intro es
  induction es with
  | nil => intro s _ _ _ _; rfl
  | cons e es ih =>
      intro s h1 h2 h3 h4
      obtain ⟨g1, g2, g3, g4, g5, g6⟩ := ListenApp.hold_step_spec gw e s h1 h2 h3 h4
      have hpair : ((ListenApp.step gw e s).ctrl_pressed, (ListenApp.step gw e s).space_pressed)
          = gate_update e (s.ctrl_pressed, s.space_pressed) := by
        rw [g3, g4]
      simp only [ListenApp.signals, gate_edges]
      rw [ih (ListenApp.step gw e s) g1 g2 g5 g6, hpair]
      congr 1
      simp only [ListenApp.signal_of, h3, g5, g3, g4]

/-- **C2.** Feeding any finite sequence of modifier/trigger press-release
events to the hold-mode handlers (any gateway, any auto-copy setting),
BeginSignal — the start of capture — fires exactly at the rising edges of
"both keys held", hence exactly once per maximal interval during which
both are held, and in particular a repeated press while both are already
held emits no additional BeginSignal; EndSignal — the stop of capture —
fires exactly at the events where either key goes from held to released
while both were previously held (the falling edges).  Formally the
observed signal stream equals the pure edge-detected gate stream. -/
theorem C2_hold_edge_detection (gw : Gateway) (auto_copy : Bool) (es : List KeyEvent) :
    ListenApp.signals gw (ListenApp.init false auto_copy) es = gate_edges (false, false) es :=
  ListenApp.hold_signals gw es (ListenApp.init false auto_copy) rfl rfl rfl rfl
